import Mathlib

/-!
Verification of the geometric layout logic of the CST-310 OpenGL coursework
repository.  The relevant program code is pure arithmetic on `GLfloat`
values; we shallowly embed it over `ℚ` (exact arithmetic), translating each
function from the C++ source.
-/

namespace RLRender

/-!
Frame-row layout from `drawScene` in `Project4/RLRender.cpp`.

The source anchors one frame (index `k`) so that its center sits at world
X `cx` (`frameLeftEdges[k] = cx - w[k] * 0.5`), then propagates the left
neighbors downward (`frameLeftEdges[i] = frameLeftEdges[i+1] - w[i]` for
`i = k-1 .. 0`) and the right neighbors upward
(`frameLeftEdges[i] = frameLeftEdges[i-1] + w[i-1]` for `i = k+1 ..`).
We model the two propagation loops by recursion on the distance `d` from
the anchor index.
-/

/-- Downward propagation loop: `propagateLeft w a k d` is the left edge of
the frame `d` positions below the anchor `k`, starting from anchor left
edge `a`; one step subtracts the width of the frame being placed
(`frameLeftEdges[i] = frameLeftEdges[i+1] - frameWidths[i]`). -/
def propagateLeft (w : ℕ → ℚ) (a : ℚ) (k : ℕ) : ℕ → ℚ
  | 0 => a
  | d + 1 => propagateLeft w a k d - w (k - (d + 1))

/-- Upward propagation loop: `propagateRight w a k d` is the left edge of
the frame `d` positions above the anchor `k`
(`frameLeftEdges[i] = frameLeftEdges[i-1] + frameWidths[i-1]`). -/
def propagateRight (w : ℕ → ℚ) (a : ℚ) (k : ℕ) : ℕ → ℚ
  | 0 => a
  | d + 1 => propagateRight w a k d + w (k + d)

/-- Left edge of frame `i` in a row of widths `w` anchored at index `k`
with anchor center X `cx`, as laid out by `drawScene`. -/
def frameLeftEdge (w : ℕ → ℚ) (k : ℕ) (cx : ℚ) (i : ℕ) : ℚ :=
  if i ≤ k then propagateLeft w (cx - w k / 2) k (k - i)
  else propagateRight w (cx - w k / 2) k (i - k)

/-- Right edge of frame `i`: `frameRightEdges[i] = frameLeftEdges[i] + frameWidths[i]`. -/
def frameRightEdge (w : ℕ → ℚ) (k : ℕ) (cx : ℚ) (i : ℕ) : ℚ :=
  frameLeftEdge w k cx i + w i

/-! Concrete frame row built in `drawScene`. -/

/-- `GLfloat frameWidth = 15.4f;` -/
def frameWidth : ℚ := 15.4

/-- `GLfloat horizontalShift = -0.5f;` -/
def horizontalShift : ℚ := -0.5

/-- `GLfloat originalFrameCenterX = -2.25f + horizontalShift;` -/
def originalFrameCenterX : ℚ := -2.25 + horizontalShift

/-- `GLfloat frameWidths[] = { frameWidth, ..., frameWidth * 0.5f };` -/
def frameWidths : List ℚ :=
  [frameWidth, frameWidth, frameWidth, frameWidth, frameWidth, frameWidth * 0.5]

/-- `const int originalFrameIndex = 3;` -/
def originalFrameIndex : ℕ := 3

/-- Left edge of frame `i` of the concrete six-frame row in `drawScene`. -/
def sceneFrameLeftEdge (i : ℕ) : ℚ :=
  frameLeftEdge (fun j => frameWidths.getD j 0) originalFrameIndex originalFrameCenterX i

/-- Right edge of frame `i` of the concrete six-frame row in `drawScene`. -/
def sceneFrameRightEdge (i : ℕ) : ℚ :=
  sceneFrameLeftEdge i + frameWidths.getD i 0

/-!
Curtain segments, from `drawCurtainSegment` and `drawWindowTextureOverlay`
in `Project4/RLRender.cpp`.  A curtain segment draws a main panel cube, a
bottom band cube, and two or three alpha-textured overlay quads; we record
the computed geometry and the parameters of every overlay pass issued.
-/

/-- One call to `drawWindowTextureOverlay`: the geometric placement and the
texture V-range parameters `texVTop`/`texVBottom` passed to it (the alpha
and forward-offset arguments are constant across the passes of one curtain
segment and are not recorded). -/
structure OverlayCall where
  centerX : ℚ
  centerY : ℚ
  frontFaceZ : ℚ
  width : ℚ
  height : ℚ
  texVTop : ℚ
  texVBottom : ℚ

/-- The quantities `drawCurtainSegment` computes for a non-degenerate
segment, in source order, together with the list of overlay passes it
issues (main panel, bottom band, and — when the vertical gap exceeds
`0.001` — the bridge across the gap). -/
structure CurtainGeometry where
  centerX : ℚ
  centerY : ℚ
  bandHeight : ℚ
  bandCenterY : ℚ
  mainTopY : ℚ
  mainBottomY : ℚ
  bandTopY : ℚ
  bandBottomEdgeY : ℚ
  combinedOverlayHeight : ℚ
  mainTexVBottom : ℚ
  bandTexVTop : ℚ
  overlays : List OverlayCall

/-- Body of `drawCurtainSegment` past the degenerate-size early return,
translated line by line from the source. -/
def curtainGeometry (leftX width topY height centerZ depth
    bottomBandHeight minBandBottomY bandBottomY : ℚ) : CurtainGeometry :=
  let centerX := leftX + width * 0.5
  let centerY := topY - height * 0.5
  let bandHeight0 := bottomBandHeight
  let bandHeight1 := if bandHeight0 > height then height else bandHeight0
  let bandHeight := if bandHeight1 < 0.001 then 0.001 else bandHeight1
  let clampedBandBottomY := if bandBottomY < minBandBottomY then minBandBottomY else bandBottomY
  let bandCenterY := clampedBandBottomY + bandHeight * 0.5
  let mainTopY := centerY + height * 0.5
  let mainBottomY := centerY - height * 0.5
  let bandTopY := bandCenterY + bandHeight * 0.5
  let bandBottomEdgeY := bandCenterY - bandHeight * 0.5
  let combinedOverlayHeight0 := mainTopY - bandBottomEdgeY
  let combinedOverlayHeight :=
    if combinedOverlayHeight0 < 0.001 then 0.001 else combinedOverlayHeight0
  let mainTexVTop := (0 : ℚ)
  let mainTexVBottom := (mainTopY - mainBottomY) / combinedOverlayHeight
  let bandTexVTop := (mainTopY - bandTopY) / combinedOverlayHeight
  let bandTexVBottom := (1 : ℚ)
  let mainOverlay : OverlayCall :=
    ⟨centerX, centerY, centerZ - depth * 0.5, width, height, mainTexVTop, mainTexVBottom⟩
  let bandOverlay : OverlayCall :=
    ⟨centerX, bandCenterY, (centerZ + 0.01) - depth * 0.5, width, bandHeight,
      bandTexVTop, bandTexVBottom⟩
  let gapTopY := mainBottomY
  let gapBottomY := bandTopY
  let gapHeight := gapTopY - gapBottomY
  let overlays :=
    if gapHeight > 0.001 then
      let gapCenterY := (gapTopY + gapBottomY) * 0.5
      [mainOverlay, bandOverlay,
        ⟨centerX, gapCenterY, (centerZ + 0.005) - depth * 0.5, width, gapHeight,
          mainTexVBottom, bandTexVTop⟩]
    else [mainOverlay, bandOverlay]
  ⟨centerX, centerY, bandHeight, bandCenterY, mainTopY, mainBottomY, bandTopY,
    bandBottomEdgeY, combinedOverlayHeight, mainTexVBottom, bandTexVTop, overlays⟩

/-- `drawCurtainSegment`: degenerate widths or heights (`<= 0.001`) return
immediately and emit nothing; otherwise the geometry above is drawn. -/
def drawCurtainSegment (leftX width topY height centerZ depth
    bottomBandHeight minBandBottomY bandBottomY : ℚ) : Option CurtainGeometry :=
  if width ≤ 0.001 ∨ height ≤ 0.001 then none
  else some (curtainGeometry leftX width topY height centerZ depth
    bottomBandHeight minBandBottomY bandBottomY)

/-!
Draw string (blinds pull cord), from `drawDrawString` in
`Project4/RLRender.cpp`.
-/

/-- One `drawSphere` call: center and radius (the slice/stack subdivision
counts do not affect placement and are not recorded). -/
structure SphereSpec where
  cx : ℚ
  cy : ℚ
  cz : ℚ
  r : ℚ

/-- C-style `(int)` cast of a float value: truncation toward zero, which for
a rational is T-division (`Int.tdiv`) of numerator by denominator. -/
def cIntCast (q : ℚ) : ℤ := q.num.tdiv (q.den : ℤ)

/-- `drawDrawString`: a chain of bead spheres from `topY` downward at
spacing `radius * 2.2`, `beadCount = (int)(length / spacing)` floored at 1,
optionally terminated by a knob sphere of radius `radius * 2.5` at
`topY - length`. -/
def drawDrawString (topX topY topZ length radius : ℚ) (drawKnob : Bool) :
    List SphereSpec :=
  let spacing := radius * 2.2
  let beadCount0 : ℤ := cIntCast (length / spacing)
  let beadCount : ℤ := if beadCount0 < 1 then 1 else beadCount0
  let beads := (List.range beadCount.toNat).map
    (fun i => ⟨topX, topY - (i : ℚ) * spacing, topZ, radius⟩)
  if drawKnob then beads ++ [⟨topX, topY - length, topZ, radius * 2.5⟩] else beads

/-!
Window grid placement, from `drawWindows` in `Project4/RLRender.cpp`.
-/

/-- The layout quantities `drawWindows` computes before emitting the window
quads: the facade area bounds, the (possibly computed) cell size, the grid
extents and the grid origin. -/
structure WindowGrid where
  left : ℚ
  right : ℚ
  bottom : ℚ
  top : ℚ
  winWidth : ℚ
  winHeight : ℚ
  gridW : ℚ
  gridH : ℚ
  startX : ℚ
  startY : ℚ

/-- Layout portion of `drawWindows`, translated line by line from the
source (margins, area bounds with the extra bottom margin, computed cell
size, grid extents, grid origin). -/
def drawWindowsLayout (rows cols : ℕ)
    (buildingX buildingY buildingW buildingH : ℚ)
    (offsetX offsetY spacingX spacingY winWidth winHeight : ℚ) : WindowGrid :=
  let marginX := buildingW * 0.05
  let marginY := buildingH * 0.05
  let left := buildingX - buildingW + marginX + offsetX
  let right := buildingX + buildingW - marginX + offsetX
  let bottom := buildingY - buildingH + marginY + buildingH * 0.1 + offsetY
  let top := buildingY + buildingH - marginY + offsetY
  let totalWidth := right - left
  let totalHeight := top - bottom
  let computedW := (totalWidth - spacingX * ((cols : ℚ) - 1)) / (cols : ℚ)
  let computedH := (totalHeight - spacingY * ((rows : ℚ) - 1)) / (rows : ℚ)
  let winWidth := if winWidth ≤ 0 then computedW else winWidth
  let winHeight := if winHeight ≤ 0 then computedH else winHeight
  let gridW := (cols : ℚ) * winWidth + ((cols : ℚ) - 1) * spacingX
  let gridH := (rows : ℚ) * winHeight + ((rows : ℚ) - 1) * spacingY
  let startX := buildingX - gridW / 2 + offsetX
  let startY := buildingY - gridH / 2 + offsetY
  ⟨left, right, bottom, top, winWidth, winHeight, gridW, gridH, startX, startY⟩

/-- Gap between the facade area's left bound and the grid's left edge. -/
def gridLeftGap (g : WindowGrid) : ℚ := g.startX - g.left

/-- Gap between the grid's right edge and the facade area's right bound. -/
def gridRightGap (g : WindowGrid) : ℚ := g.right - (g.startX + g.gridW)

/-- Gap between the facade area's bottom bound and the grid's bottom edge. -/
def gridBottomGap (g : WindowGrid) : ℚ := g.startY - g.bottom

/-- Gap between the grid's top edge and the facade area's top bound. -/
def gridTopGap (g : WindowGrid) : ℚ := g.top - (g.startY + g.gridH)

/-!
Camera pitch handling, from `specialKeys` in `Project4/RLRender.cpp`.
-/

/-- `const GLfloat ROTATE_SPEED = 2.0f;` -/
def ROTATE_SPEED : ℚ := 2

/-- The four GLUT special keys handled by `specialKeys`. -/
inductive SpecialKey where
  | keyUp : SpecialKey
  | keyDown : SpecialKey
  | keyLeft : SpecialKey
  | keyRight : SpecialKey

/-- `specialKeys` acting on `(cameraAngleX, cameraAngleY)` (pitch, yaw):
up/down adjust pitch with a clamp at `±89`, left/right adjust yaw. -/
def specialKeys (angles : ℚ × ℚ) (key : SpecialKey) : ℚ × ℚ :=
  match key with
  | .keyUp =>
    let ax := angles.1 + ROTATE_SPEED
    (if ax > 89 then 89 else ax, angles.2)
  | .keyDown =>
    let ax := angles.1 - ROTATE_SPEED
    (if ax < -89 then -89 else ax, angles.2)
  | .keyLeft => (angles.1, angles.2 - ROTATE_SPEED)
  | .keyRight => (angles.1, angles.2 + ROTATE_SPEED)

end RLRender

namespace Specular

/-!
Console shininess input loop, from `InputThreadFunc` in
`Project6/specular.cpp`.
-/

/-- Outcome of processing one input line in `InputThreadFunc`. -/
inductive InputAction where
  | invalid : InputAction
  | quitLoop : InputAction
  | store : ℚ → InputAction

/-- Per-line processing of `InputThreadFunc`: a line that fails to parse
prints an error and continues; a parsed value `<= 0` ends the loop; any
other value is stored after being capped above at `1000`. -/
def inputThreadStep (parsed : Option ℚ) : InputAction :=
  match parsed with
  | none => InputAction.invalid
  | some value =>
    if value ≤ 0 then InputAction.quitLoop
    else InputAction.store (if value > 1000 then 1000 else value)

end Specular

namespace Curtain

/-!
Curtain mesh generation, from `generateCurtainMesh` in
`curtains/curtain.cpp`.
-/

/-- `vertexCount = (subdivisionsW + 1) * (subdivisionsH + 1);` -/
def curtainVertexCount (subdivisionsW subdivisionsH : ℕ) : ℕ :=
  (subdivisionsW + 1) * (subdivisionsH + 1)

/-- `indexCount = subdivisionsW * subdivisionsH * 6;` -/
def curtainIndexCount (subdivisionsW subdivisionsH : ℕ) : ℕ :=
  subdivisionsW * subdivisionsH * 6

/-- The vertex array written by `generateCurtainMesh`: row-major grid of
position plus constant normal, six floats per vertex. -/
def curtainVertices (width height : ℚ) (subdivisionsW subdivisionsH : ℕ) :
    List (ℚ × ℚ × ℚ × ℚ × ℚ × ℚ) :=
  (List.range (subdivisionsH + 1)).flatMap (fun (y : ℕ) =>
    (List.range (subdivisionsW + 1)).map (fun (x : ℕ) =>
      ((x : ℚ) / (subdivisionsW : ℚ) * width - width / 2,
       (y : ℚ) / (subdivisionsH : ℚ) * height - height / 2,
       0, 0, 0, 1)))

/-- The index array written by `generateCurtainMesh`: per grid quad, the
two counter-clockwise triangles over the four corner vertices. -/
def curtainIndices (subdivisionsW subdivisionsH : ℕ) : List ℕ :=
  (List.range subdivisionsH).flatMap (fun y =>
    (List.range subdivisionsW).flatMap (fun x =>
      let topLeft := y * (subdivisionsW + 1) + x
      let topRight := topLeft + 1
      let bottomLeft := (y + 1) * (subdivisionsW + 1) + x
      let bottomRight := bottomLeft + 1
      [topLeft, bottomLeft, topRight, topRight, bottomLeft, bottomRight]))

end Curtain

namespace RLRender

/-- Unfolding lemma: the anchor frame's left edge. -/
theorem frameLeftEdge_anchor (w : ℕ → ℚ) (k : ℕ) (cx : ℚ) :
    frameLeftEdge w k cx k = cx - w k / 2 := by
  simp [frameLeftEdge, propagateLeft]

/-- Claim C1: in every frame row laid out by the shared-edge propagation in
`drawScene`, adjacent frames share an edge exactly
(`rightEdge i = leftEdge (i+1)`), and the anchor frame's center sits at
`cx` (`leftEdge k + w k / 2 = cx`). -/
theorem frame_row_shared_edges (w : ℕ → ℚ) (k : ℕ) (cx : ℚ) (i : ℕ) :
    frameRightEdge w k cx i = frameLeftEdge w k cx (i + 1) ∧
    frameLeftEdge w k cx k + w k / 2 = cx := by
  constructor
  · unfold frameRightEdge frameLeftEdge
    rcases Nat.lt_trichotomy i k with h | rfl | h
    · rw [if_pos (Nat.le_of_lt h), if_pos (show i + 1 ≤ k from h)]
      rw [show k - i = (k - (i + 1)) + 1 from by omega]
      simp only [propagateLeft]
      rw [show k - (k - (i + 1) + 1) = i from by omega]
      ring
    · rw [if_pos (Nat.le_refl i), if_neg (show ¬ i + 1 ≤ i by omega)]
      rw [show i - i = 0 from by omega, show i + 1 - i = 0 + 1 from by omega]
      simp only [propagateLeft, propagateRight, Nat.add_zero]
    · rw [if_neg (show ¬ i ≤ k by omega), if_neg (show ¬ i + 1 ≤ k by omega)]
      rw [show i + 1 - k = (i - k) + 1 from by omega]
      simp only [propagateRight]
      rw [show k + (i - k) = i from by omega]
  · rw [frameLeftEdge_anchor]
    ring

/-- Claim C2 counterexample: in the six-frame row of `drawScene`
(widths `[15.4, 15.4, 15.4, 15.4, 15.4, 7.7]`, anchor index 3, anchor
center X `-2.75`), the left edge of frame 0 is `-56.65`, not
`-2.75 - 15.4*2 - 15.4/2 = -41.25` as the claim states: three full frames
sit to the left of the anchor, not two. -/
theorem scene_frame_left_edge_zero_ne_claimed :
    sceneFrameLeftEdge 0 ≠ -2.75 - 15.4 * 2 - 15.4 / 2 := by
  norm_num [sceneFrameLeftEdge, frameLeftEdge, originalFrameIndex, originalFrameCenterX,
    horizontalShift, propagateLeft, frameWidths, frameWidth]

/-- Claim C2 (amended): the six-frame row of `drawScene` yields
`leftEdge 0 = -2.75 - 15.4*3 - 15.4/2` (the anchor center minus half the
anchor width minus the three full frame widths to its left) and
`rightEdge 5 = leftEdge 0 + (15.4*5 + 7.7)` (the total row width). -/
theorem scene_frame_row_edges :
    sceneFrameLeftEdge 0 = -2.75 - 15.4 * 3 - 15.4 / 2 ∧
    sceneFrameRightEdge 5 = sceneFrameLeftEdge 0 + (15.4 * 5 + 7.7) := by
  norm_num [sceneFrameRightEdge, sceneFrameLeftEdge, frameLeftEdge, originalFrameIndex,
    originalFrameCenterX, horizontalShift, propagateLeft, propagateRight, frameWidths, frameWidth]

end RLRender

namespace RLRender

/-- Auxiliary: one `specialKeys` event keeps the pitch inside `[-89, 89]`. -/
theorem specialKeys_pitch_step (s : ℚ × ℚ) (k : SpecialKey)
    (h1 : -89 ≤ s.1) (h2 : s.1 ≤ 89) :
    -89 ≤ (specialKeys s k).1 ∧ (specialKeys s k).1 ≤ 89 := by
  cases k <;> simp only [specialKeys, ROTATE_SPEED] <;>
    first
      | exact ⟨h1, h2⟩
      | (split_ifs <;> exact ⟨by linarith, by linarith⟩)

/-- Auxiliary: folding any event list from an in-range pitch stays in range. -/
theorem specialKeys_foldl_pitch (keys : List SpecialKey) :
    ∀ s : ℚ × ℚ, -89 ≤ s.1 → s.1 ≤ 89 →
      -89 ≤ (keys.foldl specialKeys s).1 ∧ (keys.foldl specialKeys s).1 ≤ 89 := by
  induction keys with
  | nil => exact fun s h1 h2 => ⟨h1, h2⟩
  | cons k ks ih =>
    intro s h1 h2
    obtain ⟨a, b⟩ := specialKeys_pitch_step s k h1 h2
    simpa using ih (specialKeys s k) a b

/-- Claim C6: starting from pitch 0, every finite sequence of arrow-key
events processed by `specialKeys` keeps `cameraAngleX` within
`[-89, 89]` degrees, regardless of the number of events. -/
theorem camera_pitch_always_clamped (keys : List SpecialKey) (yaw0 : ℚ) :
    -89 ≤ (keys.foldl specialKeys (0, yaw0)).1 ∧
      (keys.foldl specialKeys (0, yaw0)).1 ≤ 89 :=
  specialKeys_foldl_pitch keys (0, yaw0) (by norm_num) (by norm_num)

/-- Claim C3: whatever band bottom Y is requested, the band actually drawn
by `drawCurtainSegment` has its bottom edge (`bandCenterY - bandHeight/2`)
at or above `minBandBottomY` (the frame bottom at every call site). -/
theorem curtain_band_never_below_frame_bottom
    (leftX width topY height centerZ depth
      bottomBandHeight minBandBottomY bandBottomY : ℚ) (g : CurtainGeometry)
    (h : drawCurtainSegment leftX width topY height centerZ depth
      bottomBandHeight minBandBottomY bandBottomY = some g) :
    minBandBottomY ≤ g.bandCenterY - g.bandHeight / 2 := by
  unfold drawCurtainSegment at h
  split at h
  · exact absurd h (by simp)
  · replace h := Option.some.inj h
    subst h
    simp only [curtainGeometry]
    split_ifs <;> linarith

theorem curtain_band_never_below_frame_bottom_witness :
    (4 : ℚ) ≤ (curtainGeometry 0 2 10 6 0 1 1 4 3).bandCenterY
      - (curtainGeometry 0 2 10 6 0 1 1 4 3).bandHeight / 2 :=
  curtain_band_never_below_frame_bottom 0 2 10 6 0 1 1 4 3 _
    (by norm_num [drawCurtainSegment])

/-- Claim C10: degenerate curtain dimensions (`width <= 0.001` or
`height <= 0.001`) make `drawCurtainSegment` return immediately with no
geometry at all. -/
theorem curtain_degenerate_returns_none
    (leftX width topY height centerZ depth
      bottomBandHeight minBandBottomY bandBottomY : ℚ)
    (h : width ≤ 0.001 ∨ height ≤ 0.001) :
    drawCurtainSegment leftX width topY height centerZ depth
      bottomBandHeight minBandBottomY bandBottomY = none := by
  unfold drawCurtainSegment
  exact if_pos h

theorem curtain_degenerate_returns_none_witness :
    drawCurtainSegment 0 0 10 5 0 1 1 0 0 = none :=
  curtain_degenerate_returns_none 0 0 10 5 0 1 1 0 0 (Or.inl (by norm_num))

/-- Claim C4 (amended): when the vertical gap between main panel and band
exceeds the source threshold `0.001`, exactly three overlay passes are
issued, and their texture-V parameters are contiguous: the bridge pass
starts at the main pass's `texVBottom` and ends at the band pass's
`texVTop`. -/
theorem curtain_bridge_texv_contiguous
    (leftX width topY height centerZ depth
      bottomBandHeight minBandBottomY bandBottomY : ℚ) (g : CurtainGeometry)
    (h : drawCurtainSegment leftX width topY height centerZ depth
      bottomBandHeight minBandBottomY bandBottomY = some g)
    (hgap : g.mainBottomY - g.bandTopY > 0.001) :
    g.overlays.length = 3 ∧
    (g.overlays.getD 2 ⟨0, 0, 0, 0, 0, 0, 0⟩).texVTop
      = (g.overlays.getD 0 ⟨0, 0, 0, 0, 0, 0, 0⟩).texVBottom ∧
    (g.overlays.getD 2 ⟨0, 0, 0, 0, 0, 0, 0⟩).texVBottom
      = (g.overlays.getD 1 ⟨0, 0, 0, 0, 0, 0, 0⟩).texVTop := by
  unfold drawCurtainSegment at h
  split at h
  · exact absurd h (by simp)
  · replace h := Option.some.inj h
    subst h
    simp only [curtainGeometry] at hgap ⊢
    rw [if_pos hgap]
    simp [List.getD]

theorem curtain_bridge_texv_contiguous_witness :
    (curtainGeometry 0 2 10 3 0 1 1 0 0).overlays.length = 3 ∧
    ((curtainGeometry 0 2 10 3 0 1 1 0 0).overlays.getD 2 ⟨0, 0, 0, 0, 0, 0, 0⟩).texVTop
      = ((curtainGeometry 0 2 10 3 0 1 1 0 0).overlays.getD 0 ⟨0, 0, 0, 0, 0, 0, 0⟩).texVBottom ∧
    ((curtainGeometry 0 2 10 3 0 1 1 0 0).overlays.getD 2 ⟨0, 0, 0, 0, 0, 0, 0⟩).texVBottom
      = ((curtainGeometry 0 2 10 3 0 1 1 0 0).overlays.getD 1 ⟨0, 0, 0, 0, 0, 0, 0⟩).texVTop :=
  curtain_bridge_texv_contiguous 0 2 10 3 0 1 1 0 0 _
    (by norm_num [drawCurtainSegment]) (by norm_num [curtainGeometry])

/-- Claim C4 counterexample: a segment whose main panel bottom lies above
the band top by only `0.0005` (a positive vertical gap) is drawn with just
two overlay passes: the `> 0.001` threshold suppresses the bridge, so
"three passes whenever `mainBottomY > bandTopY`" is false. -/
theorem curtain_tiny_gap_only_two_overlays :
    drawCurtainSegment 0 1 10 5 0 1 0.001 0 4.9985
      = some (curtainGeometry 0 1 10 5 0 1 0.001 0 4.9985) ∧
    (curtainGeometry 0 1 10 5 0 1 0.001 0 4.9985).bandTopY
      < (curtainGeometry 0 1 10 5 0 1 0.001 0 4.9985).mainBottomY ∧
    (curtainGeometry 0 1 10 5 0 1 0.001 0 4.9985).overlays.length = 2 := by
  refine ⟨by norm_num [drawCurtainSegment], by norm_num [curtainGeometry], ?_⟩
  norm_num [curtainGeometry]

/-- Claim C7 counterexample: a `1 × 1` grid with explicit cell size `1/2`
on a unit facade has bottom gap `0.6` and top gap `0.7`: the extra bottom
margin (`buildingH * 0.1`) makes the vertical gaps unequal. -/
theorem window_grid_vertical_gaps_unequal :
    gridBottomGap (drawWindowsLayout 1 1 0 0 1 1 0 0 0 0 (1/2) (1/2))
      ≠ gridTopGap (drawWindowsLayout 1 1 0 0 1 1 0 0 0 0 (1/2) (1/2)) := by
  norm_num [drawWindowsLayout, gridBottomGap, gridTopGap]

/-- Claim C7 (amended): the window grid placed by `drawWindows` is centered
horizontally (left gap equals right gap exactly), but vertically the top
gap exceeds the bottom gap by exactly `buildingH * 0.1` (the extra bottom
margin), for computed and for explicitly given window sizes alike. -/
theorem window_grid_gaps (rows cols : ℕ)
    (buildingX buildingY buildingW buildingH : ℚ)
    (offsetX offsetY spacingX spacingY winWidth winHeight : ℚ) :
    gridLeftGap (drawWindowsLayout rows cols buildingX buildingY buildingW buildingH
        offsetX offsetY spacingX spacingY winWidth winHeight)
      = gridRightGap (drawWindowsLayout rows cols buildingX buildingY buildingW buildingH
        offsetX offsetY spacingX spacingY winWidth winHeight) ∧
    gridTopGap (drawWindowsLayout rows cols buildingX buildingY buildingW buildingH
        offsetX offsetY spacingX spacingY winWidth winHeight)
      = gridBottomGap (drawWindowsLayout rows cols buildingX buildingY buildingW buildingH
        offsetX offsetY spacingX spacingY winWidth winHeight) + buildingH * 0.1 := by
  simp only [drawWindowsLayout, gridLeftGap, gridRightGap, gridTopGap, gridBottomGap]
  constructor <;> ring

/-- Auxiliary: the C `(int)` cast agrees with the floor on nonnegative
rationals. -/
theorem cIntCast_eq_floor (q : ℚ) (h : 0 ≤ q) : cIntCast q = ⌊q⌋ := by
  unfold cIntCast
  rw [Rat.floor_def, Int.tdiv_eq_ediv (Rat.num_nonneg.mpr h) (by positivity)]

/-- Claim C8: for positive length and radius, `drawDrawString` places
`max 1 ⌊length / (2.2 * radius)⌋` beads spaced exactly `2.2 * radius`
apart descending from `topY`, and with `drawKnob = true` exactly one
additional knob sphere of radius `2.5 * radius` centered at
`topY - length`. -/
theorem draw_string_geometry (topX topY topZ length radius : ℚ)
    (hlen : 0 < length) (hrad : 0 < radius) :
    ((drawDrawString topX topY topZ length radius false).length : ℤ)
      = max 1 ⌊length / (2.2 * radius)⌋ ∧
    (∀ i, i < (drawDrawString topX topY topZ length radius false).length →
      (drawDrawString topX topY topZ length radius false).getD i ⟨0, 0, 0, 0⟩
        = ⟨topX, topY - (i : ℚ) * (2.2 * radius), topZ, radius⟩) ∧
    drawDrawString topX topY topZ length radius true
      = drawDrawString topX topY topZ length radius false
        ++ [⟨topX, topY - length, topZ, radius * 2.5⟩] := by
  have hsp : (0 : ℚ) < radius * 2.2 := mul_pos hrad (by norm_num)
  have hq : 0 ≤ length / (radius * 2.2) := le_of_lt (div_pos hlen hsp)
  have hfloor : cIntCast (length / (radius * 2.2)) = ⌊length / (radius * 2.2)⌋ :=
    cIntCast_eq_floor _ hq
  have hcomm : radius * 2.2 = 2.2 * radius := mul_comm _ _
  refine ⟨?_, ?_, ?_⟩
  · simp only [drawDrawString, Bool.false_eq_true, if_false, List.length_map,
      List.length_range]
    rw [← hcomm, hfloor]
    rcases lt_or_le ⌊length / (radius * 2.2)⌋ 1 with hc | hc
    · rw [if_pos hc]; omega
    · rw [if_neg (not_lt.mpr hc)]; omega
  · intro i hi
    simp only [drawDrawString, Bool.false_eq_true, if_false, List.length_map,
      List.length_range] at hi
    simp only [drawDrawString, Bool.false_eq_true, if_false]
    rw [List.getD_eq_getElem?_getD, List.getElem?_map, List.getElem?_range hi]
    simp only [Option.map_some', Option.getD_some, SphereSpec.mk.injEq,
      and_true, true_and]
    rw [hcomm]
  · simp [drawDrawString]

theorem draw_string_geometry_witness :
    ((drawDrawString 0 0 0 1 (1/2) false).length : ℤ)
      = max 1 ⌊(1 : ℚ) / (2.2 * (1/2))⌋ ∧
    (∀ i, i < (drawDrawString 0 0 0 1 (1/2) false).length →
      (drawDrawString 0 0 0 1 (1/2) false).getD i ⟨0, 0, 0, 0⟩
        = ⟨0, 0 - (i : ℚ) * (2.2 * (1/2)), 0, 1/2⟩) ∧
    drawDrawString 0 0 0 1 (1/2) true
      = drawDrawString 0 0 0 1 (1/2) false ++ [⟨0, 0 - 1, 0, (1/2) * 2.5⟩] :=
  draw_string_geometry 0 0 0 1 (1/2) (by norm_num) (by norm_num)

end RLRender

namespace Specular

/-- Claim C5 (code-bug evidence): the input loop stores the parsed value
`0.5` unchanged, even though `0.5 < 1`: the code only caps values above
`1000` and never raises small positive values to `1`, so not every stored
value lies in `[1, 1000]`. -/
theorem inputThread_stores_half_below_one :
    inputThreadStep (some (1/2)) = InputAction.store (1/2) ∧ ((1 : ℚ)/2) < 1 := by
  constructor
  · norm_num [inputThreadStep]
  · norm_num

end Specular

namespace Curtain

/-- Auxiliary: a `flatMap` over `List.range` whose pieces all have length
`c` yields `n * c` elements. -/
theorem length_flatMap_range {β : Type*} (n c : ℕ) (f : ℕ → List β)
    (hf : ∀ y, (f y).length = c) :
    ((List.range n).flatMap f).length = n * c := by
  rw [List.length_flatMap]
  rw [show List.map (List.length ∘ f) (List.range n)
        = List.map (fun _ => c) (List.range n)
      from List.map_congr_left (fun a _ => hf a)]
  simp [List.map_const']

/-- Auxiliary: the largest index written for a grid quad (its bottom-right
corner) is below the vertex count. -/
theorem quad_index_lt (subdivisionsW subdivisionsH y x : ℕ)
    (hy : y < subdivisionsH) (hx : x < subdivisionsW) :
    (y + 1) * (subdivisionsW + 1) + x + 1
      < (subdivisionsW + 1) * (subdivisionsH + 1) := by
  have h1 : (y + 1) * (subdivisionsW + 1) ≤ subdivisionsH * (subdivisionsW + 1) :=
    mul_le_mul_right' hy _
  have h2 : subdivisionsH * (subdivisionsW + 1) + (subdivisionsW + 1)
      = (subdivisionsW + 1) * (subdivisionsH + 1) := by ring
  have h3 : x + 1 ≤ subdivisionsW := hx
  linarith

/-- Claim C9: `generateCurtainMesh` reports
`vertexCount = (subdivisionsW+1)*(subdivisionsH+1)` and
`indexCount = subdivisionsW*subdivisionsH*6`, writes exactly that many
vertices and indices, and every written index is strictly below the vertex
count. -/
theorem curtain_mesh_counts_and_bounds (width height : ℚ)
    (subdivisionsW subdivisionsH : ℕ)
    (hw : 1 ≤ subdivisionsW) (hh : 1 ≤ subdivisionsH) :
    (curtainVertices width height subdivisionsW subdivisionsH).length
      = curtainVertexCount subdivisionsW subdivisionsH ∧
    (curtainIndices subdivisionsW subdivisionsH).length
      = curtainIndexCount subdivisionsW subdivisionsH ∧
    ∀ i ∈ curtainIndices subdivisionsW subdivisionsH,
      i < curtainVertexCount subdivisionsW subdivisionsH := by
  refine ⟨?_, ?_, ?_⟩
  · unfold curtainVertices curtainVertexCount
    rw [show (subdivisionsW + 1) * (subdivisionsH + 1)
        = (subdivisionsH + 1) * (subdivisionsW + 1) from by ring]
    apply length_flatMap_range
    intro y
    rw [List.length_map, List.length_range]
  · unfold curtainIndices curtainIndexCount
    rw [show subdivisionsW * subdivisionsH * 6
        = subdivisionsH * (subdivisionsW * 6) from by ring]
    apply length_flatMap_range
    intro y
    apply length_flatMap_range
    intro x
    simp
  · intro i hi
    simp only [curtainIndices, List.mem_flatMap, List.mem_range] at hi
    obtain ⟨y, hy, x, hx, hi⟩ := hi
    have hb := quad_index_lt subdivisionsW subdivisionsH y x hy hx
    have hm : y * (subdivisionsW + 1) ≤ (y + 1) * (subdivisionsW + 1) :=
      mul_le_mul_right' (Nat.le_succ y) _
    unfold curtainVertexCount
    simp only [List.mem_cons, List.not_mem_nil, or_false] at hi
    rcases hi with rfl | rfl | rfl | rfl | rfl | rfl <;> linarith

theorem curtain_mesh_counts_and_bounds_witness :
    (curtainVertices 1 1 2 2).length = curtainVertexCount 2 2 ∧
    (curtainIndices 2 2).length = curtainIndexCount 2 2 ∧
    ∀ i ∈ curtainIndices 2 2, i < curtainVertexCount 2 2 :=
  curtain_mesh_counts_and_bounds 1 1 2 2 (by norm_num) (by norm_num)

end Curtain
